import Mathlib

/-!
Shallow embedding of `src/amlpp/conveyor/conveyor.py` (class `Conveyor`).

Feature tables are values of an arbitrary type `α`; targets are lists
(`List γ`) so that the pandas `Y.empty` test becomes `List.isEmpty`.
A pipeline stage (a `block` in the source) carries internal state of type
`σ`: `block.fit` mutates that state in place and returns the block itself
(the sklearn convention the code relies on), which the embedding models by
returning the updated stage.  Every call the pipeline code makes on a
stage, on the estimator or on the progress bar is recorded in an event
trace so that claims about which methods are (not) invoked can be stated.
-/

namespace AMLpp

variable {α γ σ π ν τ ρ : Type}

/-- Observable calls made by the pipeline code. -/
inductive Ev where
  | fitStage (name : String)
  | transformStage (name : String)
  | targetTransformStage (name : String)
  | estimatorFit
  | estimatorPredict
  | progressUpdate
  deriving DecidableEq, Repr

/-- A pipeline stage (a `block`): internal state `state`, the `fit` state
update, the `transform` function, and the optional `target_transform`
capability; `hasTargetTransform` models the runtime probe
`'target_transform' in dir(block)` of line 80. -/
structure Stage (α γ σ : Type) where
  name : String
  state : σ
  fitFn : σ → α → List γ → σ
  transformFn : σ → α → α
  hasTargetTransform : Bool
  targetTransformFn : σ → List γ → List γ

/-- `block.fit(X, Y)`: mutates the stage state in place and returns the
(now fitted) stage. -/
def Stage.fit (b : Stage α γ σ) (X : α) (Y : List γ) : Stage α γ σ :=
  { b with state := b.fitFn b.state X Y }

/-- The estimator slot: `fit` mutates its state, `predict` is a function of
the state and the features. -/
structure Estimator (α γ π : Type) where
  state : π
  fitFn : π → α → List γ → π
  predictFn : π → α → List γ

/-- `Conveyor` (conveyor.py line 25): the ordered block list and the
estimator slot. -/
structure Conveyor (α γ σ π : Type) where
  blocks : List (Stage α γ σ)
  estimator : Estimator α γ π

/-- `Conveyor._transform` (lines 75-82):
`X = block.transform(X)`, then
`if not Y.empty and 'target_transform' in dir(block): Y = block.target_transform(Y)`. -/
def Conveyor._transform (b : Stage α γ σ) (X : α) (Y : List γ) :
    (α × List γ) × List Ev :=
  let X' := b.transformFn b.state X
  if !Y.isEmpty && b.hasTargetTransform then
    ((X', b.targetTransformFn b.state Y),
      [Ev.transformStage b.name, Ev.targetTransformStage b.name])
  else
    ((X', Y), [Ev.transformStage b.name])

/-- The `for block in self.blocks` loop of `transform` (lines 71-72). -/
def transformLoop (bs : List (Stage α γ σ)) (X : α) (Y : List γ) :
    (α × List γ) × List Ev :=
  match bs with
  | [] => ((X, Y), [])
  | b :: rest =>
    let r := Conveyor._transform b X Y
    let r' := transformLoop rest r.1.1 r.1.2
    (r'.1, r.2 ++ r'.2)

/-- `Conveyor.transform` (lines 67-73); `X_, Y_ = (X.copy(), Y.copy())` is
the identity at the level of values (the aliasing side of copying is treated
by the `PyStore` model below). -/
def Conveyor.transform (c : Conveyor α γ σ π) (X : α) (Y : List γ) :
    (α × List γ) × List Ev :=
  transformLoop c.blocks X Y

/-- The stage loop of `fit_transform` (lines 55-58): per block, fit it on
the current data, run `_transform` with the freshly fitted block on the same
data, advance the progress bar; the fitted block replaces the old one in
`self.blocks` (an in-place mutation in the original, modelled by returning
the updated block list). -/
def fitTransformLoop (bs : List (Stage α γ σ)) (X : α) (Y : List γ) :
    (α × List γ) × List (Stage α γ σ) × List Ev :=
  match bs with
  | [] => ((X, Y), [], [])
  | b :: rest =>
    let b' := b.fit X Y
    let r := Conveyor._transform b' X Y
    let r' := fitTransformLoop rest r.1.1 r.1.2
    (r'.1, b' :: r'.2.1,
      Ev.fitStage b.name :: (r.2 ++ (Ev.progressUpdate :: r'.2.2)))

/-- `Conveyor.fit_transform` (lines 51-64): the stage loop on copies of the
inputs, then, when `estimator` is set, `self.estimator.fit(X_, Y_)` followed
by one more progress update. -/
def Conveyor.fit_transform (c : Conveyor α γ σ π) (X : α) (Y : List γ)
    (estimator : Bool) : (α × List γ) × Conveyor α γ σ π × List Ev :=
  let r := fitTransformLoop c.blocks X Y
  if estimator then
    let est := { c.estimator with
      state := c.estimator.fitFn c.estimator.state r.1.1 r.1.2 }
    (r.1, { c with blocks := r.2.1, estimator := est },
      r.2.2 ++ [Ev.estimatorFit, Ev.progressUpdate])
  else
    (r.1, { c with blocks := r.2.1 }, r.2.2)

/-- `Conveyor.fit` (lines 48-49): `fit_transform` with the estimator,
discarding the transformed data. -/
def Conveyor.fit (c : Conveyor α γ σ π) (X : α) (Y : List γ) :
    Conveyor α γ σ π × List Ev :=
  let r := c.fit_transform X Y true
  (r.2.1, r.2.2)

/-- `Conveyor.predict` (lines 85-86):
`self.estimator.predict(self.transform(X.copy())[0])` — the stage chain is
invoked with the default empty target. -/
def Conveyor.predict (c : Conveyor α γ σ π) (X : α) : List γ × List Ev :=
  let r := c.transform X []
  (c.estimator.predictFn c.estimator.state r.1.1, r.2 ++ [Ev.estimatorPredict])

/-- A resolved metric callable together with its `__name__`; a Python
exception raised by the metric is the `Except.error` branch.  (In the source
the sklearn metrics arrive as name strings and are resolved with `eval`
(line 106); the claims presuppose that every name resolves to a callable, so
the embedding takes the already resolved callables.) -/
structure MetricFn (γ ρ : Type) where
  name : String
  apply : List γ → List γ → Except String ρ

/-- `Conveyor._get_score` (lines 115-119): format
`"function - {name} = {value}\n"` on success and
`"function - {name} = ERROR: {e}\n"` when the metric raises. -/
def Conveyor._get_score [ToString ρ] (f : MetricFn γ ρ) (y r : List γ) :
    String :=
  match f.apply y r with
  | Except.ok v => "function - " ++ f.name ++ " = " ++ toString v ++ "\n"
  | Except.error e => "function - " ++ f.name ++ " = ERROR: " ++ e ++ "\n"

/-- `Conveyor.score` (lines 89-113) on the `_return = True` path: transform,
predict, accumulate one `_get_score` line per metric over both metric lists,
return `(score, result, Y_)`. -/
def Conveyor.score [ToString ρ] (c : Conveyor α γ σ π) (X : α) (Y : List γ)
    (sklearn_function : List (MetricFn γ ρ))
    (precision_function : List (MetricFn γ ρ)) :
    String × List γ × List γ :=
  let t := c.transform X Y
  let X_ := t.1.1
  let Y_ := t.1.2
  let result := c.estimator.predictFn c.estimator.state X_
  let s1 := sklearn_function.foldl
    (fun acc f => acc ++ Conveyor._get_score f Y_ result) ""
  let s2 := precision_function.foldl
    (fun acc f => acc ++ Conveyor._get_score f Y_ result) s1
  (s2, result, Y_)

/-- Models sklearn's `train_test_split(X, Y, test_size = 0.1, random_state = 42)`
(an external collaborator) for row-list data: the rows are partitioned into
a train part and a test part of `ceil(0.1 * n)` rows; the seeded shuffle is
abstracted to an order-preserving partition, which is all that matters for
membership of test rows among the original rows. -/
def train_test_split (X : List ν) (Y : List γ) :
    List ν × List ν × List γ × List γ :=
  let n := X.length
  let nTest := (n + 9) / 10
  (X.take (n - nTest), X.drop (n - nTest), Y.take (n - nTest), Y.drop (n - nTest))

/-- Everything `fit_model` (lines 168-196) computes: the transformed
training data, the validation data handed to both search tracks, each
track's refit model and score, and the conveyor with the chosen estimator. -/
structure FitModelRun (α γ σ π : Type) where
  X_train : α
  Y_train : List γ
  X_test : α
  Y_test : List γ
  lgb_model : Estimator α γ π
  lgb_score : Int
  tpot_model : Estimator α γ π
  tpot_score : Int
  conveyor : Conveyor α γ σ π

/-- `Conveyor.fit_model` (lines 168-196).  The two search tracks
(`fit_lgbm_model`, `fit_sklearn_model`, both driven by the external optuna
engine) and sklearn's `train_test_split` are taken as function parameters;
each track receives `(X_train, Y_train, X_test, Y_test)` and returns its
refit model and that model's predictions on `X_test`.  Line 179 is the
unpacking `X_test, X_test, Y_test, Y_test = train_test_split(X_train,
Y_train, ...)`: after it `X_test` holds the second returned component and
`Y_test` the fourth, while `X_train`, `Y_train` still hold the full
transformed data.  Line 192 is
`self.estimator = tpot_model if tpot_score > lgb_score else lgb_model`. -/
def Conveyor.fit_model (c : Conveyor α γ σ π)
    (rating_func : List γ → List γ → Int)
    (lgbTrack skTrack : α → List γ → α → List γ → Estimator α γ π × List γ)
    (tts : α → List γ → α × α × List γ × List γ)
    (X : α) (Y : List γ) (X_testIn : Option α) (Y_testIn : Option (List γ)) :
    FitModelRun α γ σ π :=
  let ft := c.fit_transform X Y false
  let X_train := ft.1.1
  let Y_train := ft.1.2
  let c1 := ft.2.1
  let tv : α × List γ :=
    match X_testIn, Y_testIn with
    | some xt, some yt => (c1.transform xt yt).1
    | _, _ =>
      let sp := tts X_train Y_train
      (sp.2.1, sp.2.2.2)
  let X_test := tv.1
  let Y_test := tv.2
  let lgb := lgbTrack X_train Y_train X_test Y_test
  let lgb_score := rating_func Y_test lgb.2
  let tpot := skTrack X_train Y_train X_test Y_test
  let tpot_score := rating_func Y_test tpot.2
  let est := if tpot_score > lgb_score then tpot.1 else lgb.1
  ⟨X_train, Y_train, X_test, Y_test, lgb.1, lgb_score, tpot.1, tpot_score,
    { c1 with estimator := est }⟩

deriving instance DecidableEq for Except

/-- One candidate family of the generic-estimator track
(`sklearn_models`), together with the outcome of
`optuna.create_study(direction='maximize').optimize(...)` on it: either the
exception that the optimization loop raises, or the finished study's
`(best_params, best_value)`. -/
structure SkFamily where
  name : String
  optimizeResult : Except String (List (String × Int) × Int)
  deriving DecidableEq, Repr

/-- The `best_model` dictionary of `fit_sklearn_model` (line 202);
`model = none` stands for the initial `"model": object` placeholder. -/
structure SkBest where
  model : Option SkFamily
  params : List (String × Int)
  best_value : Int
  deriving DecidableEq, Repr

/-- The initial `best_model = {"model": object, "params": {}, "best_value": 0}`. -/
def skBestInit : SkBest := ⟨none, [], 0⟩

/-- The `for model in sklearn_models` loop (lines 205-214) as it runs inside
the `try` of lines 204-216: an exception raised while optimizing one family
propagates out of the `for` statement to the bare `except: pass`, so it ends
the whole loop with the best result seen so far; on success the family's
result replaces `best_model` exactly when `study.best_value >
best_model['best_value']` (line 213). -/
def sklearnSearchGo : List SkFamily → SkBest → SkBest
  | [], best => best
  | f :: rest, best =>
    match f.optimizeResult with
    | Except.error _ => best
    | Except.ok pv =>
      sklearnSearchGo rest
        (if pv.2 > best.best_value then ⟨some f, pv.1, pv.2⟩ else best)

/-- Lines 202-216 of `fit_sklearn_model`: the guarded catalog loop started
from the placeholder `best_model`. -/
def sklearnSearchLoop (families : List SkFamily) : SkBest :=
  sklearnSearchGo families skBestInit

/-- `Conveyor.fit_sklearn_model` (lines 198-221).  After the guarded loop,
`model = best_model['model'](**best_model['params']).fit(X, Y)` (line 218)
runs outside any `try`: with the `object` placeholder still in place this
raises `AttributeError` (class `object` has no `fit` method), the
`Except.error` branch; otherwise `build` instantiates the chosen family with
the chosen parameters and fits it on `(X, Y)`, and the result is that
model's predictions on `X_test` (line 219). -/
def fit_sklearn_model (families : List SkFamily)
    (build : SkFamily → List (String × Int) → α → List γ → Estimator α γ π)
    (X : α) (Y : List γ) (X_test : α) :
    Except String (Estimator α γ π × List γ) :=
  let best := sklearnSearchLoop families
  match best.model with
  | none => Except.error "AttributeError: type object has no attribute fit"
  | some f =>
    let m := build f best.params X Y
    Except.ok (m, m.predictFn m.state X_test)

/-- A heap of Python objects, for the aliasing/mutation claims: addresses
are indices into `cells`, `alloc` appends a fresh cell, `write` mutates a
cell in place.  Cell values are row/target lists. -/
structure PyStore (τ : Type) where
  cells : List (List τ)

def PyStore.read (s : PyStore τ) (a : Nat) : List τ := (s.cells.get? a).getD []

def PyStore.readAt (s : PyStore τ) (a : Nat) : Option (List τ) := s.cells.get? a

def PyStore.write (s : PyStore τ) (a : Nat) (v : List τ) : PyStore τ :=
  ⟨s.cells.set a v⟩

def PyStore.alloc (s : PyStore τ) (v : List τ) : Nat × PyStore τ :=
  (s.cells.length, ⟨s.cells ++ [v]⟩)

/-- A stage under the mutation model: how `fit`, `transform` and
`target_transform` mutate the argument objects in place, and the values of
the objects `transform`/`target_transform` return. -/
structure MutStage (τ : Type) where
  fitMutX : List τ → List τ → List τ
  fitMutY : List τ → List τ → List τ
  transformRet : List τ → List τ
  transformMut : List τ → List τ
  hasTargetTransform : Bool
  ttRet : List τ → List τ
  ttMut : List τ → List τ

/-- `_transform` (lines 75-82) under the mutation model: the stage may
mutate the objects it is handed; the objects it returns are fresh
allocations, which `X_`/`Y_` are rebound to. -/
def storeTransformStep (b : MutStage τ) (s : PyStore τ) (xa ya : Nat) :
    PyStore τ × Nat × Nat :=
  let xv := s.read xa
  let s1 := s.write xa (b.transformMut xv)
  let ax := s1.alloc (b.transformRet xv)
  let yv := ax.2.read ya
  if !yv.isEmpty && b.hasTargetTransform then
    let s3 := ax.2.write ya (b.ttMut yv)
    let ay := s3.alloc (b.ttRet yv)
    (ay.2, ax.1, ay.1)
  else
    (ax.2, ax.1, ya)

/-- The stage loop of `fit_transform` (lines 55-58) under the mutation
model: `block.fit(X_, Y_)` may mutate both argument objects, then
`_transform` runs on the same objects. -/
def storeFitLoop : List (MutStage τ) → PyStore τ → Nat → Nat →
    PyStore τ × Nat × Nat
  | [], s, xa, ya => (s, xa, ya)
  | b :: rest, s, xa, ya =>
    let xv := s.read xa
    let yv := s.read ya
    let s1 := (s.write xa (b.fitMutX xv yv)).write ya (b.fitMutY xv yv)
    let st := storeTransformStep b s1 xa ya
    storeFitLoop rest st.1 st.2.1 st.2.2

/-- `fit_transform` (lines 51-64) under the mutation model: line 52 first
rebinds `X_, Y_` to fresh copies `(X.copy(), Y.copy())`, then the stage loop
runs on the copies, then optionally `self.estimator.fit(X_, Y_)` runs, which
may itself mutate the objects handed to it. -/
def storeFitTransform (blocks : List (MutStage τ))
    (estMutX estMutY : List τ → List τ → List τ) (withEstimator : Bool)
    (s : PyStore τ) (xa ya : Nat) : PyStore τ × Nat × Nat :=
  let cx := s.alloc (s.read xa)
  let cy := cx.2.alloc (cx.2.read ya)
  let r := storeFitLoop blocks cy.2 cx.1 cy.1
  if withEstimator then
    let xv := r.1.read r.2.1
    let yv := r.1.read r.2.2
    ((r.1.write r.2.1 (estMutX xv yv)).write r.2.2 (estMutY xv yv),
      r.2.1, r.2.2)
  else r

/-- Is the event a call to some stage's `fit` or to the estimator's `fit`? -/
def Ev.isFitCall : Ev → Bool
  | Ev.fitStage _ => true
  | Ev.estimatorFit => true
  | _ => false

/-- Is the event a call to some stage's `transform`? -/
def Ev.isTransformCall : Ev → Bool
  | Ev.transformStage _ => true
  | _ => false

/-- Is the event a call to some stage's `transform` or `target_transform`? -/
def Ev.isStageTransformCall : Ev → Bool
  | Ev.transformStage _ => true
  | Ev.targetTransformStage _ => true
  | _ => false

/-- Is the event a call to some stage's `target_transform`? -/
def Ev.isTargetTransformCall : Ev → Bool
  | Ev.targetTransformStage _ => true
  | _ => false

lemma _transform_trace_only (b : Stage α γ σ) (X : α) (Y : List γ) :
    (Conveyor._transform b X Y).2.all Ev.isStageTransformCall = true := by
  by_cases h : (!Y.isEmpty && b.hasTargetTransform) = true <;>
    simp [Conveyor._transform, h, Ev.isStageTransformCall]

lemma _transform_trace_order (b : Stage α γ σ) (X : α) (Y : List γ) :
    (Conveyor._transform b X Y).2.filter Ev.isTransformCall
      = [Ev.transformStage b.name] := by
  by_cases h : (!Y.isEmpty && b.hasTargetTransform) = true <;>
    simp [Conveyor._transform, h, Ev.isTransformCall]

lemma transformLoop_trace_only (bs : List (Stage α γ σ)) :
    ∀ (X : α) (Y : List γ),
      (transformLoop bs X Y).2.all Ev.isStageTransformCall = true := by
  induction bs with
  | nil => intro X Y; rfl
  | cons b rest ih =>
    intro X Y
    simp only [transformLoop, List.all_append, Bool.and_eq_true]
    exact ⟨_transform_trace_only b X Y, ih _ _⟩

lemma transformLoop_trace_order (bs : List (Stage α γ σ)) :
    ∀ (X : α) (Y : List γ),
      (transformLoop bs X Y).2.filter Ev.isTransformCall
        = bs.map (fun b => Ev.transformStage b.name) := by
  induction bs with
  | nil => intro X Y; rfl
  | cons b rest ih =>
    intro X Y
    simp only [transformLoop, List.filter_append, List.map]
    rw [_transform_trace_order, ih]
    rfl

lemma stageTransformCall_not_fitCall (e : Ev)
    (h : e.isStageTransformCall = true) : e.isFitCall = false := by
  cases e <;> simp_all [Ev.isStageTransformCall, Ev.isFitCall]

/-- Claim C6: `transform` applies only each stage's `transform` (and
`target_transform`) in the order the blocks were fitted in, and never calls
any stage's `fit` nor the estimator's `fit`; `predict`, which delegates to
`transform`, likewise never re-invokes any `fit`. -/
theorem transform_no_refit (c : Conveyor α γ σ π) (X : α) (Y : List γ) :
    ((c.transform X Y).2.all Ev.isStageTransformCall = true)
    ∧ ((c.transform X Y).2.filter Ev.isTransformCall
        = c.blocks.map (fun b => Ev.transformStage b.name))
    ∧ ((c.predict X).2.all (fun e => !e.isFitCall) = true) := by
  refine ⟨transformLoop_trace_only c.blocks X Y,
    transformLoop_trace_order c.blocks X Y, ?_⟩
  have h := transformLoop_trace_only c.blocks X ([] : List γ)
  rw [List.all_eq_true] at h
  simp only [Conveyor.predict, Conveyor.transform, List.all_append,
    Bool.and_eq_true, List.all_eq_true]
  constructor
  · intro e he
    rw [stageTransformCall_not_fitCall e (h e he)]
    rfl
  · intro e he
    simp only [List.mem_singleton] at he
    subst he
    rfl

lemma transformLoop_empty_target (bs : List (Stage α γ σ)) : ∀ (X : α),
    (transformLoop bs X ([] : List γ)).1.2 = ([] : List γ)
    ∧ ((transformLoop bs X ([] : List γ)).2.all
        (fun e => !e.isTargetTransformCall)) = true := by
  induction bs with
  | nil => intro X; exact ⟨rfl, rfl⟩
  | cons b rest ih =>
    intro X
    have h : Conveyor._transform b X ([] : List γ)
        = ((b.transformFn b.state X, []), [Ev.transformStage b.name]) := by
      simp [Conveyor._transform]
    simp only [transformLoop, h, List.all_append, Bool.and_eq_true]
    exact ⟨(ih _).1, by rfl, (ih _).2⟩

/-- Claim C10: `predict` invokes the stage chain with the empty default
target, so no stage's `target_transform` is ever called during prediction,
and the predictions are the estimator applied to the transformed features of
`X` alone. -/
theorem predict_empty_target (c : Conveyor α γ σ π) (X : α) :
    ((c.predict X).2 = (c.transform X []).2 ++ [Ev.estimatorPredict])
    ∧ ((c.predict X).1
        = c.estimator.predictFn c.estimator.state (c.transform X []).1.1)
    ∧ ((c.predict X).2.all (fun e => !e.isTargetTransformCall) = true) := by
  refine ⟨rfl, rfl, ?_⟩
  simp only [Conveyor.predict, Conveyor.transform, List.all_append,
    Bool.and_eq_true]
  exact ⟨(transformLoop_empty_target c.blocks X).2, by rfl⟩

lemma transform_of_fitTransformLoop (bs : List (Stage α γ σ)) :
    ∀ (X : α) (Y : List γ),
      (transformLoop (fitTransformLoop bs X Y).2.1 X Y).1
        = (fitTransformLoop bs X Y).1 := by
  induction bs with
  | nil => intro X Y; rfl
  | cons b rest ih =>
    intro X Y
    simp only [fitTransformLoop, transformLoop]
    exact ih _ _

/-- Claim C8: re-applying the fitted stages is idempotent — `transform` run
on the same input after `fit_transform` produces exactly the `(X', Y')` that
`fit_transform` produced (stage `transform`/`target_transform` are functions
of the fitted state in this model). -/
theorem transform_after_fit_transform_idempotent (c : Conveyor α γ σ π)
    (X : α) (Y : List γ) (estimator : Bool) :
    (((c.fit_transform X Y estimator).2.1).transform X Y).1
      = (c.fit_transform X Y estimator).1 := by
  cases estimator <;>
    simp only [Conveyor.fit_transform, Conveyor.transform, Bool.false_eq_true,
      if_false, if_true] <;>
    exact transform_of_fitTransformLoop c.blocks X Y

lemma _transform_trace_no_progress (b : Stage α γ σ) (X : α) (Y : List γ) :
    (Conveyor._transform b X Y).2.countP
      (fun e => decide (e = Ev.progressUpdate)) = 0 := by
  by_cases h : (!Y.isEmpty && b.hasTargetTransform) = true <;>
    simp [Conveyor._transform, h, List.countP_cons]

lemma fitTransformLoop_progress (bs : List (Stage α γ σ)) :
    ∀ (X : α) (Y : List γ),
      (fitTransformLoop bs X Y).2.2.countP
        (fun e => decide (e = Ev.progressUpdate)) = bs.length := by
  induction bs with
  | nil => intro X Y; rfl
  | cons b rest ih =>
    intro X Y
    simp only [fitTransformLoop, List.countP_cons, List.countP_append,
      List.length_cons]
    rw [_transform_trace_no_progress, ih]
    simp

lemma fit_transform_progress (c : Conveyor α γ σ π) (X : α) (Y : List γ)
    (estimator : Bool) :
    (c.fit_transform X Y estimator).2.2.countP
        (fun e => decide (e = Ev.progressUpdate))
      = c.blocks.length + (if estimator then 1 else 0) := by
  cases estimator <;>
    simp [Conveyor.fit_transform, List.countP_append, List.countP_cons,
      fitTransformLoop_progress]

lemma PyStore.readAt_write_of_lt (s : PyStore τ) (i a : Nat) (v : List τ)
    (h : a < i) : (s.write i v).readAt a = s.readAt a := by
  simp only [PyStore.readAt, PyStore.write, List.get?_eq_getElem?]
  exact List.getElem?_set_ne (Nat.ne_of_gt h)

lemma PyStore.readAt_alloc_of_lt (s : PyStore τ) (a : Nat) (v : List τ)
    (h : a < s.cells.length) : (s.alloc v).2.readAt a = s.readAt a := by
  simp only [PyStore.readAt, PyStore.alloc, List.get?_eq_getElem?]
  exact List.getElem?_append_left h

lemma PyStore.length_write (s : PyStore τ) (i : Nat) (v : List τ) :
    (s.write i v).cells.length = s.cells.length := by
  simp [PyStore.write]

lemma PyStore.length_alloc (s : PyStore τ) (v : List τ) :
    (s.alloc v).2.cells.length = s.cells.length + 1 := by
  simp [PyStore.alloc]

/-- `s` still carries everything `s₀` carried below the low-water mark `n`:
it has at least `n` cells and agrees with `s₀` on all of them. -/
def PyStore.Extends (s₀ s : PyStore τ) (n : Nat) : Prop :=
  n ≤ s.cells.length ∧ ∀ a, a < n → s.readAt a = s₀.readAt a

lemma PyStore.Extends.refl (s : PyStore τ) (n : Nat)
    (h : n ≤ s.cells.length) : PyStore.Extends s s n :=
  ⟨h, fun _ _ => rfl⟩

lemma PyStore.Extends.write {s₀ s : PyStore τ} {n : Nat}
    (h : PyStore.Extends s₀ s n) (i : Nat) (v : List τ) (hi : n ≤ i) :
    PyStore.Extends s₀ (s.write i v) n := by
  refine ⟨by rw [PyStore.length_write]; exact h.1, fun a ha => ?_⟩
  rw [PyStore.readAt_write_of_lt _ _ _ _ (lt_of_lt_of_le ha hi)]
  exact h.2 a ha

lemma PyStore.Extends.alloc {s₀ s : PyStore τ} {n : Nat}
    (h : PyStore.Extends s₀ s n) (v : List τ) :
    PyStore.Extends s₀ (s.alloc v).2 n := by
  refine ⟨by rw [PyStore.length_alloc]; exact Nat.le_succ_of_le h.1,
    fun a ha => ?_⟩
  rw [PyStore.readAt_alloc_of_lt _ _ _ (lt_of_lt_of_le ha h.1)]
  exact h.2 a ha

/-- One `_transform` step of the mutation model writes only to the handed
addresses (at or above the low-water mark) and to fresh cells, and returns
addresses at or above the mark. -/
lemma storeTransformStep_extends (b : MutStage τ) (s₀ s : PyStore τ)
    (xa ya n : Nat) (h : PyStore.Extends s₀ s n) (hx : n ≤ xa) (hy : n ≤ ya) :
    PyStore.Extends s₀ (storeTransformStep b s xa ya).1 n
    ∧ n ≤ (storeTransformStep b s xa ya).2.1
    ∧ n ≤ (storeTransformStep b s xa ya).2.2 := by
  unfold storeTransformStep
  dsimp only
  by_cases hcond :
      (!(((s.write xa (b.transformMut (s.read xa))).alloc
            (b.transformRet (s.read xa))).2.read ya).isEmpty
        && b.hasTargetTransform) = true
  · rw [if_pos hcond]
    exact ⟨(((h.write xa _ hx).alloc _).write ya _ hy).alloc _,
      (h.write xa _ hx).1,
      (((h.write xa _ hx).alloc _).write ya _ hy).1⟩
  · rw [if_neg hcond]
    exact ⟨(h.write xa _ hx).alloc _, (h.write xa _ hx).1, hy⟩

/-- The stage loop of the mutation model never writes below the low-water
mark when started at addresses at or above it. -/
lemma storeFitLoop_extends (bs : List (MutStage τ)) :
    ∀ (s₀ s : PyStore τ) (xa ya n : Nat), PyStore.Extends s₀ s n →
      n ≤ xa → n ≤ ya →
      PyStore.Extends s₀ (storeFitLoop bs s xa ya).1 n
      ∧ n ≤ (storeFitLoop bs s xa ya).2.1
      ∧ n ≤ (storeFitLoop bs s xa ya).2.2 := by
  induction bs with
  | nil => intro s₀ s xa ya n h hx hy; exact ⟨h, hx, hy⟩
  | cons b rest ih =>
    intro s₀ s xa ya n h hx hy
    simp only [storeFitLoop]
    have h1 : PyStore.Extends s₀
        ((s.write xa (b.fitMutX (s.read xa) (s.read ya))).write ya
          (b.fitMutY (s.read xa) (s.read ya))) n :=
      (h.write xa _ hx).write ya _ hy
    obtain ⟨h2, hx2, hy2⟩ := storeTransformStep_extends b s₀ _ xa ya n h1 hx hy
    exact ih s₀ _ _ _ n h2 hx2 hy2

/-- Claim C7 (frame part): `fit_transform` first copies the argument
objects (line 52), and every later write — stage fits, stage transforms,
target transforms, the estimator fit — lands on the copies or on fresh
objects, so the caller's original `X` and `Y` cells are unchanged.
(progress part): `fit_transform` advances the progress bar exactly once per
stage plus once more for the estimator when it is trained. -/
theorem fit_transform_frame_and_progress (blocks : List (MutStage τ))
    (estMutX estMutY : List τ → List τ → List τ) (withEstimator : Bool)
    (s : PyStore τ) (xa ya : Nat) (a : Nat) (ha : a < s.cells.length)
    (c : Conveyor α γ σ π) (X : α) (Y : List γ) (estimator : Bool) :
    ((storeFitTransform blocks estMutX estMutY withEstimator s xa ya).1.readAt a
        = s.readAt a)
    ∧ ((c.fit_transform X Y estimator).2.2.countP
          (fun e => decide (e = Ev.progressUpdate))
        = c.blocks.length + (if estimator then 1 else 0)) := by
  refine ⟨?_, fit_transform_progress c X Y estimator⟩
  unfold storeFitTransform
  dsimp only
  have h0 : PyStore.Extends s s s.cells.length :=
    PyStore.Extends.refl s _ le_rfl
  have hc1 : PyStore.Extends s (s.alloc (s.read xa)).2 s.cells.length :=
    h0.alloc _
  have hc2 : PyStore.Extends s
      ((s.alloc (s.read xa)).2.alloc ((s.alloc (s.read xa)).2.read ya)).2
      s.cells.length := hc1.alloc _
  have hx1 : s.cells.length ≤ (s.alloc (s.read xa)).1 := le_rfl
  have hy1 : s.cells.length
      ≤ ((s.alloc (s.read xa)).2.alloc ((s.alloc (s.read xa)).2.read ya)).1 :=
    hc1.1
  obtain ⟨hl, hlx, hly⟩ :=
    storeFitLoop_extends blocks s _ _ _ s.cells.length hc2 hx1 hy1
  by_cases hwe : withEstimator = true
  · rw [if_pos hwe]
    exact ((hl.write _ _ hlx).write _ _ hly).2 a ha
  · rw [if_neg hwe]
    exact hl.2 a ha

/-- Concatenation of a list of report lines. -/
def strConcat : List String → String
  | [] => ""
  | s :: rest => s ++ strConcat rest

lemma strConcat_append (l₁ l₂ : List String) :
    strConcat (l₁ ++ l₂) = strConcat l₁ ++ strConcat l₂ := by
  induction l₁ with
  | nil => simp [strConcat, String.empty_append]
  | cons s rest ih => simp [strConcat, ih, String.append_assoc]

lemma foldl_append_strConcat {β : Type} (g : β → String) (l : List β) :
    ∀ acc : String,
      l.foldl (fun a f => a ++ g f) acc = acc ++ strConcat (l.map g) := by
  induction l with
  | nil => intro acc; simp [strConcat, String.append_empty]
  | cons b rest ih =>
    intro acc
    simp only [List.foldl_cons, List.map_cons, strConcat]
    rw [ih, String.append_assoc]

/-- Claim C2: metrics in `score` are evaluated independently — the report is
the concatenation of one `_get_score` entry per metric over both metric
lists (so a failing metric contributes exactly its own error line, aborts
nothing, and `score` is total); with one valid and one incompatible metric
the report is exactly one numeric line followed by one ERROR line. -/
theorem score_metric_isolation [ToString ρ] (c : Conveyor α γ σ π) (X : α)
    (Y : List γ) (fns pfns : List (MetricFn γ ρ)) :
    ((c.score X Y fns pfns).1
      = strConcat ((fns ++ pfns).map (fun f =>
          Conveyor._get_score f (c.transform X Y).1.2
            (c.estimator.predictFn c.estimator.state (c.transform X Y).1.1))))
    ∧ (∀ (f1 f2 : MetricFn γ ρ) (v : ρ) (e : String),
        fns = [f1, f2] → pfns = [] →
        f1.apply (c.transform X Y).1.2
            (c.estimator.predictFn c.estimator.state (c.transform X Y).1.1)
          = Except.ok v →
        f2.apply (c.transform X Y).1.2
            (c.estimator.predictFn c.estimator.state (c.transform X Y).1.1)
          = Except.error e →
        (c.score X Y fns pfns).1
          = ("function - " ++ f1.name ++ " = " ++ toString v ++ "\n")
            ++ ("function - " ++ f2.name ++ " = ERROR: " ++ e ++ "\n")) := by
  constructor
  · simp only [Conveyor.score]
    rw [foldl_append_strConcat, foldl_append_strConcat, String.empty_append,
      List.map_append, strConcat_append]
  · intro f1 f2 v e hfns hpfns h1 h2
    subst hfns
    subst hpfns
    simp only [Conveyor.score, List.foldl_cons, List.foldl_nil,
      Conveyor._get_score, h1, h2, String.empty_append]

/-- Claim C9 (amended): `_get_score` produces the line
`"function - name = value"` (with a trailing newline) when the metric
succeeds and `"function - name = ERROR: message"` when it raises. -/
theorem get_score_line_format [ToString ρ] (f : MetricFn γ ρ) (y r : List γ) :
    (∀ v : ρ, f.apply y r = Except.ok v →
      Conveyor._get_score f y r
        = "function - " ++ f.name ++ " = " ++ toString v ++ "\n")
    ∧ (∀ e : String, f.apply y r = Except.error e →
      Conveyor._get_score f y r
        = "function - " ++ f.name ++ " = ERROR: " ++ e ++ "\n") := by
  constructor
  · intro v hv; simp [Conveyor._get_score, hv]
  · intro e he; simp [Conveyor._get_score, he]

/-- A concrete metric that succeeds with value `3`. -/
def accuracyMetric : MetricFn Nat Nat :=
  ⟨"accuracy_score", fun _ _ => Except.ok 3⟩

/-- A concrete metric that raises (an incompatible metric for the task). -/
def rocMetric : MetricFn Nat Nat :=
  ⟨"roc_auc_score", fun _ _ => Except.error "continuous format is not supported"⟩

/-- Claim C9 counterexample: the produced line is not `"name = value"` — it
carries the `"function - "` prefix and a trailing newline. -/
theorem get_score_line_counterexample :
    Conveyor._get_score accuracyMetric [] [] ≠ "accuracy_score = 3"
    ∧ Conveyor._get_score accuracyMetric [] []
        = "function - accuracy_score = 3\n" := by
  exact ⟨by decide, rfl⟩

theorem get_score_line_format_witness :
    accuracyMetric.apply [] [] = Except.ok 3
    ∧ Conveyor._get_score accuracyMetric [] []
        = "function - " ++ accuracyMetric.name ++ " = " ++ toString (3 : Nat)
          ++ "\n" :=
  ⟨rfl, (get_score_line_format accuracyMetric [] []).1 3 rfl⟩

/-- An estimator whose state is `0` and whose predictions echo the features. -/
def estimatorId : Estimator (List Nat) Nat Nat :=
  ⟨0, fun s _ _ => s, fun _ x => x⟩

/-- A conveyor with no preprocessing stages over `List Nat` data. -/
def conveyor0 : Conveyor (List Nat) Nat Unit Nat := ⟨[], estimatorId⟩

theorem score_metric_isolation_witness :
    accuracyMetric.apply [7] [5] = Except.ok 3
    ∧ rocMetric.apply [7] [5]
        = Except.error "continuous format is not supported"
    ∧ (conveyor0.score [5] [7] [accuracyMetric, rocMetric] []).1
        = ("function - " ++ accuracyMetric.name ++ " = " ++ toString (3 : Nat)
            ++ "\n")
          ++ ("function - " ++ rocMetric.name ++ " = ERROR: "
            ++ "continuous format is not supported" ++ "\n") :=
  ⟨rfl, rfl,
    (score_metric_isolation conveyor0 [5] [7] [accuracyMetric, rocMetric] []).2
      accuracyMetric rocMetric 3 "continuous format is not supported"
      rfl rfl rfl rfl⟩

lemma fit_model_estimator_eq (c : Conveyor α γ σ π)
    (rating_func : List γ → List γ → Int)
    (lgbTrack skTrack : α → List γ → α → List γ → Estimator α γ π × List γ)
    (tts : α → List γ → α × α × List γ × List γ)
    (X : α) (Y : List γ) (X_testIn : Option α) (Y_testIn : Option (List γ)) :
    (c.fit_model rating_func lgbTrack skTrack tts X Y X_testIn Y_testIn).conveyor.estimator
      = if (c.fit_model rating_func lgbTrack skTrack tts X Y X_testIn Y_testIn).lgb_score
            < (c.fit_model rating_func lgbTrack skTrack tts X Y X_testIn Y_testIn).tpot_score
        then (c.fit_model rating_func lgbTrack skTrack tts X Y X_testIn Y_testIn).tpot_model
        else (c.fit_model rating_func lgbTrack skTrack tts X Y X_testIn Y_testIn).lgb_model :=
  rfl

/-- Claim C1: after `fit_model`, with both track scores computed by the same
rating function on the same validation data, the estimator is the
generic-estimator track's model exactly when `tpot_score` is strictly
greater than `lgb_score`; on a tie or when `lgb_score` is greater the
tree-ensemble track's model is kept (line 192). -/
theorem fit_model_champion_selection (c : Conveyor α γ σ π)
    (rating_func : List γ → List γ → Int)
    (lgbTrack skTrack : α → List γ → α → List γ → Estimator α γ π × List γ)
    (tts : α → List γ → α × α × List γ × List γ)
    (X : α) (Y : List γ) (X_testIn : Option α) (Y_testIn : Option (List γ))
    (run : FitModelRun α γ σ π)
    (hrun : run = c.fit_model rating_func lgbTrack skTrack tts X Y X_testIn Y_testIn)
    (hne : run.tpot_model ≠ run.lgb_model) :
    (run.conveyor.estimator = run.tpot_model
      ↔ run.lgb_score < run.tpot_score)
    ∧ (run.tpot_score ≤ run.lgb_score →
        run.conveyor.estimator = run.lgb_model) := by
  subst hrun
  rw [fit_model_estimator_eq]
  constructor
  · constructor
    · intro hest
      by_cases h : (c.fit_model rating_func lgbTrack skTrack tts X Y X_testIn Y_testIn).lgb_score
          < (c.fit_model rating_func lgbTrack skTrack tts X Y X_testIn Y_testIn).tpot_score
      · exact h
      · rw [if_neg h] at hest
        exact absurd hest.symm hne
    · intro h
      rw [if_pos h]
  · intro hle
    rw [if_neg (not_lt.mpr hle)]

/-- An estimator distinct from `estimatorB` (state 1). -/
def estimatorA : Estimator (List Nat) Nat Nat :=
  ⟨1, fun s _ _ => s, fun _ x => x⟩

/-- An estimator distinct from `estimatorA` (state 2). -/
def estimatorB : Estimator (List Nat) Nat Nat :=
  ⟨2, fun s _ _ => s, fun _ x => x⟩

/-- A concrete `fit_model` run in which the generic-estimator track scores
strictly higher (1 vs 0, rating = number of predictions). -/
def runC1 : FitModelRun (List Nat) Nat Unit Nat :=
  conveyor0.fit_model (fun _ r => Int.ofNat r.length)
    (fun _ _ _ _ => (estimatorA, [])) (fun _ _ _ _ => (estimatorB, [1]))
    train_test_split [0, 1, 2, 3, 4, 5, 6, 7, 8, 9]
    [0, 1, 2, 3, 4, 5, 6, 7, 8, 9] none none

theorem fit_model_champion_selection_witness :
    (runC1.tpot_model ≠ runC1.lgb_model)
    ∧ ((runC1.conveyor.estimator = runC1.tpot_model
        ↔ runC1.lgb_score < runC1.tpot_score)
      ∧ (runC1.tpot_score ≤ runC1.lgb_score →
          runC1.conveyor.estimator = runC1.lgb_model)) :=
  have hne : runC1.tpot_model ≠ runC1.lgb_model :=
    fun h => absurd (congrArg Estimator.state h) (by decide)
  ⟨hne,
    fit_model_champion_selection conveyor0 (fun _ r => Int.ofNat r.length)
      (fun _ _ _ _ => (estimatorA, [])) (fun _ _ _ _ => (estimatorB, [1]))
      train_test_split [0, 1, 2, 3, 4, 5, 6, 7, 8, 9]
      [0, 1, 2, 3, 4, 5, 6, 7, 8, 9] none none runC1 rfl hne⟩

/-- A concrete `fit_model` run without an explicit test set, on ten rows. -/
def runC5 : FitModelRun (List Nat) Nat Unit Nat :=
  conveyor0.fit_model (fun _ _ => 0)
    (fun _ _ _ _ => (estimatorId, [])) (fun _ _ _ _ => (estimatorId, []))
    train_test_split [0, 1, 2, 3, 4, 5, 6, 7, 8, 9]
    [0, 1, 2, 3, 4, 5, 6, 7, 8, 9] none none

/-- Claim C5 (code bug, line 179): with no explicit test set the unpacking
`X_test, X_test, Y_test, Y_test = train_test_split(X_train, Y_train, ...)`
leaves `X_train` as the full transformed data while `X_test` is the split's
test portion — so every validation row handed to the search tracks also
occurs in their training data, the opposite of a disjoint held-out split. -/
theorem fit_model_validation_overlaps_training :
    runC5.X_train = [0, 1, 2, 3, 4, 5, 6, 7, 8, 9]
    ∧ runC5.X_test = [9]
    ∧ runC5.X_test.all (fun v => runC5.X_train.contains v) = true := by
  decide

/-- A family whose optimization succeeds with `best_value = 5`. -/
def skFamilyA : SkFamily :=
  ⟨"LinearRegression", Except.ok ([("normalize", 1)], 5)⟩

/-- A family whose optimization loop raises. -/
def skFamilyB : SkFamily := ⟨"RandomForestRegressor", Except.error "ValueError"⟩

/-- A family whose optimization succeeds with `best_value = 9`, the best of
the catalog. -/
def skFamilyC : SkFamily := ⟨"ExtraTreesRegressor", Except.ok ([], 9)⟩

/-- Claim C3 counterexample: with catalog `[A, B, C]` where `B` raises and
`C` would score best, the code keeps `A`'s result — identical to running the
loop on `[A]` alone — because the exception aborts the whole `for` loop;
the claim's prediction (skip `B` only, i.e. the `[A, C]` outcome, keeping
`C`) does not hold. -/
theorem sklearn_family_skip_counterexample :
    sklearnSearchLoop [skFamilyA, skFamilyB, skFamilyC]
        = sklearnSearchLoop [skFamilyA]
    ∧ sklearnSearchLoop [skFamilyA, skFamilyB, skFamilyC]
        ≠ sklearnSearchLoop [skFamilyA, skFamilyC]
    ∧ (sklearnSearchLoop [skFamilyA, skFamilyB, skFamilyC]).model
        ≠ some skFamilyC := by
  exact ⟨by decide, by decide, by decide⟩

lemma sklearnSearchGo_append_error (post : List SkFamily) (f : SkFamily)
    (hf : ∃ e, f.optimizeResult = Except.error e) :
    ∀ (pre : List SkFamily) (best : SkBest),
      (∀ g ∈ pre, ∃ pv, g.optimizeResult = Except.ok pv) →
      sklearnSearchGo (pre ++ f :: post) best = sklearnSearchGo pre best := by
  intro pre
  induction pre with
  | nil =>
    intro best _
    obtain ⟨e, he⟩ := hf
    simp [sklearnSearchGo, he]
  | cons g rest ih =>
    intro best hpre
    obtain ⟨pv, hg⟩ := hpre g (List.mem_cons_self g rest)
    simp only [List.cons_append, sklearnSearchGo, hg]
    exact ih _ (fun g' hg' => hpre g' (List.mem_cons_of_mem g hg'))

/-- Claim C3 (amended): when one candidate family's optimization loop
raises, the exception propagates out of the `for` loop to the bare
`except: pass`, so that family AND all remaining families are skipped; the
track keeps the best family-plus-parameters pair seen among the families
before the failure. -/
theorem sklearn_family_failure_truncates (pre post : List SkFamily)
    (f : SkFamily)
    (hpre : ∀ g ∈ pre, ∃ pv, g.optimizeResult = Except.ok pv)
    (hf : ∃ e, f.optimizeResult = Except.error e) :
    sklearnSearchLoop (pre ++ f :: post) = sklearnSearchLoop pre := by
  unfold sklearnSearchLoop
  exact sklearnSearchGo_append_error post f hf pre skBestInit hpre

theorem sklearn_family_failure_truncates_witness :
    (∀ g ∈ [skFamilyA], ∃ pv, g.optimizeResult = Except.ok pv)
    ∧ (∃ e, skFamilyB.optimizeResult = Except.error e)
    ∧ sklearnSearchLoop ([skFamilyA] ++ skFamilyB :: [skFamilyC])
        = sklearnSearchLoop [skFamilyA] := by
  have hpre : ∀ g ∈ [skFamilyA], ∃ pv, g.optimizeResult = Except.ok pv := by
    intro g hg
    rw [List.mem_singleton] at hg
    subst hg
    exact ⟨([("normalize", 1)], 5), rfl⟩
  have hf : ∃ e, skFamilyB.optimizeResult = Except.error e := ⟨"ValueError", rfl⟩
  exact ⟨hpre, hf,
    sklearn_family_failure_truncates [skFamilyA] [skFamilyC] skFamilyB hpre hf⟩

/-- A concrete `build` collaborator for the generic-estimator track. -/
def buildConst :
    SkFamily → List (String × Int) → List Nat → List Nat →
      Estimator (List Nat) Nat Nat :=
  fun _ _ _ _ => estimatorId

/-- Claim C4 counterexample: when the only family raises, `fit_sklearn_model`
raises (`AttributeError` from fitting the `object` placeholder) instead of
returning a model-and-predictions result. -/
theorem fit_sklearn_all_fail_counterexample :
    fit_sklearn_model [skFamilyB] buildConst ([1] : List Nat) [2] [3]
      = Except.error "AttributeError: type object has no attribute fit" := rfl

/-- Claim C4 (amended): if every candidate family's optimization loop
raises, `best_model` keeps its initial `object` placeholder, and the refit
step `best_model['model'](**best_model['params']).fit(X, Y)` (line 218)
raises `AttributeError` outside any `try` — `fit_sklearn_model` raises
rather than returning a result. -/
theorem fit_sklearn_all_fail_raises (families : List SkFamily)
    (build : SkFamily → List (String × Int) → α → List γ → Estimator α γ π)
    (X : α) (Y : List γ) (X_test : α)
    (h : ∀ f ∈ families, ∃ e, f.optimizeResult = Except.error e) :
    fit_sklearn_model families build X Y X_test
      = Except.error "AttributeError: type object has no attribute fit" := by
  have hbest : sklearnSearchLoop families = skBestInit := by
    cases families with
    | nil => rfl
    | cons f rest =>
      obtain ⟨e, he⟩ := h f (List.mem_cons_self f rest)
      simp [sklearnSearchLoop, sklearnSearchGo, he]
  simp [fit_sklearn_model, hbest, skBestInit]

theorem fit_sklearn_all_fail_raises_witness :
    (∀ f ∈ [skFamilyB], ∃ e, f.optimizeResult = Except.error e)
    ∧ fit_sklearn_model [skFamilyB] buildConst ([1] : List Nat) [2] [3]
        = Except.error "AttributeError: type object has no attribute fit" := by
  have h : ∀ f ∈ [skFamilyB], ∃ e, f.optimizeResult = Except.error e := by
    intro f hf
    rw [List.mem_singleton] at hf
    subst hf
    exact ⟨"ValueError", rfl⟩
  exact ⟨h, fit_sklearn_all_fail_raises [skFamilyB] buildConst [1] [2] [3] h⟩

/-- A mutating stage for the frame witness: it overwrites every object it
is handed. -/
def mutStageC7 : MutStage Nat :=
  ⟨fun _ _ => [], fun _ _ => [0], fun v => v, fun _ => [42], true,
    fun v => v, fun _ => [7]⟩

/-- A two-cell heap holding the caller's `X` (address 0) and `Y` (address 1). -/
def storeC7 : PyStore Nat := ⟨[[5], [6]]⟩

/-- A concrete stage for the progress-count witness. -/
def stageC7 : Stage (List Nat) Nat Unit :=
  ⟨"scaler", (), fun s _ _ => s, fun _ x => x, false, fun _ y => y⟩

/-- A one-stage conveyor for the progress-count witness. -/
def conveyorC7 : Conveyor (List Nat) Nat Unit Nat := ⟨[stageC7], estimatorId⟩

theorem fit_transform_frame_and_progress_witness :
    (0 < storeC7.cells.length)
    ∧ (((storeFitTransform [mutStageC7] (fun _ _ => [1]) (fun _ _ => [2])
            true storeC7 0 1).1.readAt 0
          = storeC7.readAt 0)
      ∧ ((conveyorC7.fit_transform [3] [4] true).2.2.countP
            (fun e => decide (e = Ev.progressUpdate))
          = conveyorC7.blocks.length + (if true then 1 else 0))) :=
  ⟨by decide,
    fit_transform_frame_and_progress [mutStageC7] (fun _ _ => [1])
      (fun _ _ => [2]) true storeC7 0 1 0 (by decide) conveyorC7 [3] [4] true⟩

end AMLpp
